import Mathlib

/-!
Verification of the PyNGL build script (`setup.py`).

This file gives a shallow embedding of the build script's pure logic and of
its effect trace.  Filesystem paths are plain strings and `os.path.join` is
modelled by `pathJoin` (every second argument in the script is a relative
component, and Python's join of a relative component appends it with a `/`
separator unless the left part is empty or already ends in `/`).  Side
effects (file writes, copies, directory creation, chdir, environment
mutation) are recorded as an explicit list of `Effect` values in program
order.  The abstract inputs (environment variables, filesystem existence,
`os.walk` results, directory listings, platform identifiers) are parameters,
so every theorem quantifies over all environments and installation trees.
-/

/-- The single-quote character as a one-character string (the script writes
the version fields wrapped in single quotes). -/
def quoteS : String := String.singleton (Char.ofNat 39)

/-- `strHasPrefix p s` tests whether `p` is a prefix of `s` (character-wise). -/
def strHasPrefix (p s : String) : Bool := p.data.isPrefixOf s.data

/-- `strEndsWith s suf` tests whether `s` ends with `suf` (character-wise).
This models Python's `s[-len(suf):] == suf` used for the `.py`/`.res`
extension checks. -/
def strEndsWith (s suf : String) : Bool := suf.data.isSuffixOf s.data

/-- `strTake s n` is the first `n` characters of `s`; models Python `s[:n]`. -/
def strTake (s : String) (n : Nat) : String := String.mk (s.data.take n)

/-- Model of Python `os.path.join(a, b)` for the joins in `setup.py`:
if `b` is absolute it wins, otherwise it is appended with a `/` separator
unless `a` is empty or already ends in `/`. -/
def pathJoin (a b : String) : String :=
  if strHasPrefix "/" b then b
  else if a = "" ∨ strEndsWith a "/" then a ++ b
  else a ++ "/" ++ b

/-- Model of Python `str.split()` with no argument: split on whitespace runs
and drop empty pieces (used for the `F2CLIBS` environment variable). -/
def pySplit (s : String) : List String :=
  (s.split Char.isWhitespace).filter (fun t => t ≠ "")

/-- `PYNGL_NCARG_DIR = "src/ngl/ncarg"` (setup.py line 57). -/
def PYNGL_NCARG_DIR : String := "src/ngl/ncarg"

/-- `pynglex_dir = "examples"` (setup.py line 353). -/
def pynglex_dir : String := "examples"

/-- `pyngl_vfile = "src/ngl/version.py"` (setup.py line 315). -/
def pyngl_vfile : String := "src/ngl/version.py"

/-- The diagnostic printed when NumPy cannot be imported (setup.py line 54). -/
def numpyMissingMsg : String := "Error: Cannot import NumPy. Can" ++ quoteS ++ "t continue."

/-- The diagnostic printed when `NCARG_ROOT` is unset (setup.py line 64). -/
def ncargRootMsg : String := "NCARG_ROOT is not set; can" ++ quoteS ++ "t continue!"

/-- Resolution of the `NCARG_LIB` environment variable (setup.py lines 66-69):
its value if set, else `os.path.join(ncarg_root, 'lib')`. -/
def ncarg_lib_resolved (env : String → Option String) (ncarg_root : String) : String :=
  match env "NCARG_LIB" with
  | some v => v
  | none => pathJoin ncarg_root "lib"

/-- The four lines written by `create_version_file` (setup.py lines 102-111):
the PyNGL version, the array-module name, the array-module version, and the
first five characters of `sys.version`, each as a quoted assignment. -/
def versionLines (pyngl_version array_module_version sys_version : String) : List String :=
  ["version = " ++ quoteS ++ pyngl_version ++ quoteS,
   "array_module = " ++ quoteS ++ "numpy" ++ quoteS,
   "array_module_version = " ++ quoteS ++ array_module_version ++ quoteS,
   "python_version = " ++ quoteS ++ strTake sys_version 5 ++ quoteS]

/-- The conditional append of an optional third-party location: if the
environment variable `v` is set, a single entry `join(value, sub)`, else
nothing (the `try: PATHS.append(...) except: pass` pattern of setup.py
lines 234-253 and 275-292). -/
def optPath (env : String → Option String) (v sub : String) : List String :=
  match env v with
  | some p => [pathJoin p sub]
  | none => []

/-- The platform-conditional `lib64` entry (setup.py lines 199-202): present
exactly when the machine is `x86_64` or `ia64` and `/usr/X11R6/lib64` exists. -/
def lib64Part (fs : String → Bool) (unameLast : String) : List String :=
  if (unameLast == "x86_64" || unameLast == "ia64") && fs "/usr/X11R6/lib64"
  then ["/usr/X11R6/lib64"] else []

/-- The library-search-path entries preceding the `lib64` conditional entry
(setup.py lines 189-197): `ncarg_lib`, then the two X11 directories when
they exist. -/
def libPathsPre (ncarg_lib : String) (fs : String → Bool) : List String :=
  [ncarg_lib]
  ++ (if fs "/usr/X11R6/lib" then ["/usr/X11R6/lib"] else [])
  ++ (if fs "/opt/X11/lib" then ["/opt/X11/lib"] else [])

/-- The trailing library-search-path entries (setup.py lines 259-263): the
`F2CLIBS_PREFIX` and `NCLLIBS_PREFIX` values when nonempty. -/
def f2cSuffix (f2clibsDir ncllibsDir : String) : List String :=
  (if f2clibsDir ≠ "" then [f2clibsDir] else [])
  ++ (if ncllibsDir ≠ "" then [ncllibsDir] else [])

/-- The extra C/Fortran interface libraries chosen by `sys.platform`
(setup.py lines 209-216). -/
def platLibs (sysPlatform : String) : List String :=
  if sysPlatform == "aix5" then ["xlf90"]
  else if sysPlatform == "sunos5" then ["f77compat", "fsu", "sunmath"]
  else if sysPlatform == "darwin" then ["quadmath"]
  else []

/-- The base NCL library names (setup.py lines 205-206). -/
def NCL_BASE_LIBS : List String :=
  ["nfpfort", "hlu", "ncarg", "ncarg_gks", "ncarg_c", "ngmath", "X11"]

/-- The cairo-support library names appended unconditionally
(setup.py lines 224-233). -/
def CAIRO_LIBS : List String :=
  ["cairo", "fontconfig", "pixman-1", "freetype", "expat", "pthread",
   "Xrender", "Xext", "bz2", "gfortran"]

/-- `set_ncl_libs_and_paths` (setup.py lines 188-265): returns the ordered
library-name list and the ordered library-search-path list.  The appends are
laid out in source order: libraries are the base list, the
`sys.platform`-conditional additions, the cairo block, `png`/`z`, and the
words of `F2CLIBS`; paths are `ncarg_lib`, the existing X11 directories, the
platform-conditional `lib64` entry, the four optional third-party `lib`
directories, and the nonempty `F2CLIBS_PREFIX`/`NCLLIBS_PREFIX` values. -/
def set_ncl_libs_and_paths (ncarg_lib : String) (fs : String → Bool)
    (unameLast sysPlatform : String) (env : String → Option String)
    (f2clibs : Option (List String)) (f2clibsDir ncllibsDir : String) :
    List String × List String :=
  (NCL_BASE_LIBS ++ platLibs sysPlatform ++ CAIRO_LIBS ++ ["png", "z"]
     ++ f2clibs.getD [],
   libPathsPre ncarg_lib fs ++ lib64Part fs unameLast
     ++ optPath env "CAIRO_PREFIX" "lib" ++ optPath env "FREETYPE_PREFIX" "lib"
     ++ optPath env "PNG_PREFIX" "lib" ++ optPath env "ZLIB_PREFIX" "lib"
     ++ f2cSuffix f2clibsDir ncllibsDir)

/-- The `FREETYPE_PREFIX` include entries (setup.py lines 288-292): two
entries when the variable is set, nothing otherwise. -/
def freetypeIncPart (env : String → Option String) : List String :=
  match env "FREETYPE_PREFIX" with
  | some p => [pathJoin p "include", pathJoin p "include/freetype2"]
  | none => []

/-- `set_include_paths` (setup.py lines 268-296): the NumPy include directory
inserted at position 0, the NCL include directory, the optional third-party
`include` directories, and `src/gsun`. -/
def set_include_paths (ncarg_root numpyInclude : String)
    (env : String → Option String) : List String :=
  [numpyInclude, pathJoin ncarg_root "include"]
  ++ optPath env "PNG_PREFIX" "include"
  ++ optPath env "ZLIB_PREFIX" "include"
  ++ optPath env "CAIRO_PREFIX" "include"
  ++ freetypeIncPart env
  ++ ["src/gsun"]

/-- One recorded side effect of the build script. -/
inductive Effect where
  | write (path : String) (lines : List String)
  | removeFile (path : String)
  | mkdir (path : String)
  | copy (src dst : String)
  | chdir (path : String)
  | setenv (var val : String)
  deriving DecidableEq

/-- Whether an effect writes file content (only `create_version_file` does). -/
def Effect.isWrite : Effect → Bool
  | .write _ _ => true
  | _ => false

/-- One step of `os.walk`: a visited directory (relative to
`$NCARG_ROOT/lib/ncarg`) and the plain files directly inside it. -/
structure WalkEntry where
  root : String
  files : List String
  deriving DecidableEq

/-- Accumulated state of the data-file collection phase: the directories this
run has created so far, the effects in order, and the `DATA_FILES` manifest
entries appended so far. -/
structure CollectOut where
  created : List String
  effects : List Effect
  dataFiles : List String
  deriving DecidableEq

/-- `if not os.path.exists(d): os.mkdir(d)` with the filesystem modelled as
the initial existence predicate `fs` plus the directories created earlier in
this run. -/
def mkdirIfAbsent (fs : String → Bool) (st : CollectOut) (d : String) : CollectOut :=
  if fs d = true ∨ d ∈ st.created then st
  else { st with created := st.created ++ [d], effects := st.effects ++ [Effect.mkdir d] }

/-- `dir_to_copy_to = os.path.join(cwd, PYNGL_NCARG_DIR, root)`
(setup.py line 169). -/
def destDir (cwd root : String) : String := pathJoin (pathJoin cwd PYNGL_NCARG_DIR) root

/-- The per-file body of the walk loop (setup.py lines 172-177): when the
visited directory is not exactly `database/rangs`, copy the file and append
`os.path.join('ncarg', root, name)` to `DATA_FILES`. -/
def ncargCopyStep (ncl_ncarg_dir root d : String)
    (st : CollectOut) (nm : String) : CollectOut :=
  if root ≠ "database/rangs" then
    { st with
      effects := st.effects ++ [Effect.copy (pathJoin (pathJoin ncl_ncarg_dir root) nm) d],
      dataFiles := st.dataFiles ++ [pathJoin (pathJoin "ncarg" root) nm] }
  else st

/-- The per-directory body of the walk loop (setup.py lines 168-177): ensure
the staging directory for `root` exists, then process each file. -/
def ncargStep (ncl_ncarg_dir cwd : String) (fs : String → Bool)
    (st : CollectOut) (e : WalkEntry) : CollectOut :=
  e.files.foldl (ncargCopyStep ncl_ncarg_dir e.root (destDir cwd e.root))
    (mkdirIfAbsent fs st (destDir cwd e.root))

/-- `ncarg_dirs` (setup.py line 158). -/
def NCARG_DIRS : List String := ["colormaps", "data", "database", "fontcaps", "graphcaps"]

/-- The prologue of `get_ncarg_files` (setup.py lines 160-163): make
`PYNGL_NCARG_DIR` when absent and change into `$NCARG_ROOT/lib/ncarg`. -/
def ncargInit (ncl_ncarg_dir : String) (fs : String → Bool)
    (created0 : List String) : CollectOut :=
  let st1 := mkdirIfAbsent fs { created := created0, effects := [], dataFiles := [] }
               PYNGL_NCARG_DIR
  { st1 with effects := st1.effects ++ [Effect.chdir ncl_ncarg_dir] }

/-- The epilogue of `get_ncarg_files` (setup.py lines 179-183): change back
to the original directory, copy the special `sysresfile`, and append its
manifest entry. -/
def ncargFinish (cwd : String) (st : CollectOut) : CollectOut :=
  { st with
    effects := st.effects ++ [Effect.chdir cwd, Effect.copy "data/sysresfile" PYNGL_NCARG_DIR],
    dataFiles := st.dataFiles ++ [pathJoin "ncarg" "sysresfile"] }

/-- `get_ncarg_files` (setup.py lines 152-185): walk each known subdirectory
of `$NCARG_ROOT/lib/ncarg` (the walks are an abstract input `walks`, and the
loop over `ncarg_dirs` concatenates them), staging directories and copies as
described above.  `created0` is the set of directories created earlier in
the run (by `get_pynglex_files`). -/
def get_ncarg_files (ncarg_lib cwd : String) (fs : String → Bool)
    (created0 : List String) (walks : String → List WalkEntry) : CollectOut :=
  ncargFinish cwd
    ((NCARG_DIRS.flatMap walks).foldl
      (ncargStep (pathJoin ncarg_lib "ncarg") cwd fs)
      (ncargInit (pathJoin ncarg_lib "ncarg") fs created0))

/-- The per-file body of `get_pynglex_files` (setup.py lines 143-147): copy
each `.py` or `.res` file and append its destination to `DATA_FILES`. -/
def pynglexStep (dirToCopyTo : String) (st : CollectOut) (file : String) : CollectOut :=
  if strEndsWith file ".py" || strEndsWith file ".res" then
    { st with
      effects := st.effects ++ [Effect.copy (pathJoin pynglex_dir file) dirToCopyTo],
      dataFiles := st.dataFiles ++ [pathJoin dirToCopyTo file] }
  else st

/-- `get_pynglex_files` (setup.py lines 133-149). -/
def get_pynglex_files (fs : String → Bool) (listing : List String) : CollectOut :=
  let st1 := mkdirIfAbsent fs { created := [], effects := [], dataFiles := [] }
               PYNGL_NCARG_DIR
  let st2 := mkdirIfAbsent fs st1 (pathJoin PYNGL_NCARG_DIR "pynglex")
  listing.foldl (pynglexStep (pathJoin PYNGL_NCARG_DIR "pynglex")) st2

/-- A `distutils` extension target, with the keyword arguments used by
setup.py lines 333-346. -/
structure Extension where
  name : String
  sources : List String
  define_macros : List (String × Option String)
  include_dirs : List String
  library_dirs : List String
  libraries : List String
  extra_objects : List String
  deriving DecidableEq

/-- `EXT_MODULES` (setup.py lines 333-346): the `_hlu` and `fplib` targets,
sharing every configuration argument and differing in their source lists. -/
def EXT_MODULES (dmacros : List (String × Option String))
    (incDirs libDirs libNames extraObjs : List String) : List Extension :=
  [{ name := "_hlu",
     sources := ["src/Helper.c", "src/hlu/hlu_wrap.c", "src/gsun/gsun.c"],
     define_macros := dmacros, include_dirs := incDirs, library_dirs := libDirs,
     libraries := libNames, extra_objects := extraObjs },
   { name := "fplib",
     sources := [pathJoin (pathJoin "src" "paft") "fplibmodule.c"],
     define_macros := dmacros, include_dirs := incDirs, library_dirs := libDirs,
     libraries := libNames, extra_objects := extraObjs }]

/-- Abstract inputs of one invocation of the build script: whether NumPy
imports, the process environment, initial filesystem existence, the
`os.uname()` machine and release fields, `sys.platform`, `sys.version`, the
NumPy version and include directory, the first (stripped) line of the
`version` file, the `examples` directory listing, the `os.walk` results per
walked subdirectory, and the current working directory. -/
structure World where
  numpyOk : Bool
  env : String → Option String
  fs : String → Bool
  unameLast : String
  unameRelease : String
  sysPlatform : String
  sysVersion : String
  arrayModuleVersion : String
  versionLine : String
  numpyInclude : String
  pynglexListing : List String
  walks : String → List WalkEntry
  cwd : String

/-- How a run of the script ends: an explicit `sys.exit`, an uncaught
`KeyError` on the `os.environ["CFLAGS"] +=` line, or reaching the final
`setup(...)` call with the collected manifest and extension targets. -/
inductive Outcome where
  | exit (code : Nat) (msg : String)
  | crash
  | finished (dataFiles : List String) (extModules : List Extension)

/-- The `if os.path.exists(p): os.remove(p)` pattern (setup.py lines 103-104
and 307). -/
def removedIfExists (present : Bool) (p : String) : List Effect :=
  if present then [Effect.removeFile p] else []

/-- The effects of the script after the `CFLAGS` lines (setup.py lines
326-330): on a `KeyError` (no `CFLAGS` and the architecture condition false)
nothing further runs; otherwise the two environment mutations followed by
the effects of the two data-file collection passes. -/
def cflagsTailEffects (cflagsRes : Option String) (archCond : Bool)
    (pxEffects ncEffects : List Effect) : List Effect :=
  match cflagsRes with
  | none => []
  | some cflags =>
    ((if archCond then [Effect.setenv "CFLAGS" "-O2"] else [])
      ++ [Effect.setenv "CFLAGS" (cflags ++ " -fopenmp ")])
    ++ pxEffects ++ ncEffects

/-- The build script in program order (setup.py lines 48-381): the NumPy
guard, the environment resolution, the `MANIFEST` removal, the
version-file creation, the library/path and include assembly, the `CFLAGS`
mutation (an uncaught `KeyError` when `CFLAGS` is unset and the architecture
condition is false), the extension configuration, and the two data-file
collection passes.  Returns the outcome and the ordered effect trace. -/
def runSetup (w : World) : Outcome × List Effect :=
  if w.numpyOk then
    match w.env "NCARG_ROOT" with
    | none => (Outcome.exit 1 ncargRootMsg, [])
    | some ncarg_root =>
      let ncarg_lib := ncarg_lib_resolved w.env ncarg_root
      let f2clibs := (w.env "F2CLIBS").map pySplit
      let f2clibsDir := (w.env "F2CLIBS_PREFIX").getD ""
      let ncllibsDir := (w.env "NCLLIBS_PREFIX").getD ""
      let extraObjs := match w.env "EXTRA_OBJECTS" with
        | some v => [v]
        | none => []
      let manifestEffects := removedIfExists (w.fs "MANIFEST") "MANIFEST"
      let vfileEffects :=
        removedIfExists (w.fs pyngl_vfile) pyngl_vfile
        ++ [Effect.write pyngl_vfile
              (versionLines w.versionLine w.arrayModuleVersion w.sysVersion)]
      let libsPaths := set_ncl_libs_and_paths ncarg_lib w.fs w.unameLast w.sysPlatform
                         w.env f2clibs f2clibsDir ncllibsDir
      let incDirs := set_include_paths ncarg_root w.numpyInclude w.env
      let archCond := w.unameLast == "x86_64"
                      || (w.unameLast == "Power Macintosh" && w.unameRelease == "7.9.0")
      let cflagsRes := if archCond then some "-O2" else w.env "CFLAGS"
      let px := get_pynglex_files w.fs w.pynglexListing
      let nc := get_ncarg_files ncarg_lib w.cwd w.fs px.created w.walks
      let outcome := match cflagsRes with
        | none => Outcome.crash
        | some _ =>
          Outcome.finished (px.dataFiles ++ nc.dataFiles)
            (EXT_MODULES [("NeedFuncProto", none)] incDirs libsPaths.2 libsPaths.1 extraObjs)
      (outcome,
       manifestEffects ++ vfileEffects
         ++ cflagsTailEffects cflagsRes archCond px.effects nc.effects)
  else (Outcome.exit 1 numpyMissingMsg, [])

/-! ### Generic facts about the collection folds -/

theorem foldl_dataFiles_char {α : Type} (step : CollectOut → α → CollectOut)
    (g : α → List String)
    (h : ∀ st x, (step st x).dataFiles = st.dataFiles ++ g x) :
    ∀ (l : List α) (st : CollectOut),
      (l.foldl step st).dataFiles = st.dataFiles ++ l.flatMap g := by
  intro l
  induction l with
  | nil => intro st; simp
  | cons x xs ih =>
    intro st
    simp only [List.foldl_cons, ih, h, List.flatMap_cons, List.append_assoc]

theorem foldl_created_eq {α : Type} (step : CollectOut → α → CollectOut)
    (h : ∀ st x, (step st x).created = st.created) :
    ∀ (l : List α) (st : CollectOut), (l.foldl step st).created = st.created := by
  intro l
  induction l with
  | nil => intro st; rfl
  | cons x xs ih => intro st; rw [List.foldl_cons, ih, h]

theorem foldl_effects_mono {α : Type} (step : CollectOut → α → CollectOut)
    (h : ∀ st x y, y ∈ st.effects → y ∈ (step st x).effects) :
    ∀ (l : List α) (st : CollectOut) (y : Effect),
      y ∈ st.effects → y ∈ (l.foldl step st).effects := by
  intro l
  induction l with
  | nil => intro st y hy; exact hy
  | cons x xs ih => intro st y hy; exact ih _ _ (h _ _ _ hy)

theorem foldl_created_mono {α : Type} (step : CollectOut → α → CollectOut)
    (h : ∀ st x y, y ∈ st.created → y ∈ (step st x).created) :
    ∀ (l : List α) (st : CollectOut) (y : String),
      y ∈ st.created → y ∈ (l.foldl step st).created := by
  intro l
  induction l with
  | nil => intro st y hy; exact hy
  | cons x xs ih => intro st y hy; exact ih _ _ (h _ _ _ hy)

theorem filter_isWrite_foldl {α : Type} (step : CollectOut → α → CollectOut)
    (h : ∀ st x, ((step st x).effects).filter Effect.isWrite
                   = (st.effects).filter Effect.isWrite) :
    ∀ (l : List α) (st : CollectOut),
      ((l.foldl step st).effects).filter Effect.isWrite
        = (st.effects).filter Effect.isWrite := by
  intro l
  induction l with
  | nil => intro st; rfl
  | cons x xs ih => intro st; rw [List.foldl_cons, ih, h]

theorem flatMap_nil_fun {α β : Type} (l : List α) :
    (l.flatMap fun _ => ([] : List β)) = [] := by
  induction l with
  | nil => rfl
  | cons x xs ih => simp [List.flatMap_cons, ih]

theorem flatMap_singleton_fun {α β : Type} (l : List α) (f : α → β) :
    (l.flatMap fun x => [f x]) = l.map f := by
  induction l with
  | nil => rfl
  | cons x xs ih => simp [List.flatMap_cons, ih]

/-! ### Facts about the individual collection steps -/

theorem mkdirIfAbsent_dataFiles (fs : String → Bool) (st : CollectOut) (d : String) :
    (mkdirIfAbsent fs st d).dataFiles = st.dataFiles := by
  unfold mkdirIfAbsent; split <;> rfl

theorem mkdirIfAbsent_filterWrite (fs : String → Bool) (st : CollectOut) (d : String) :
    ((mkdirIfAbsent fs st d).effects).filter Effect.isWrite
      = (st.effects).filter Effect.isWrite := by
  unfold mkdirIfAbsent; split
  · rfl
  · simp [List.filter_append, Effect.isWrite]

theorem mkdirIfAbsent_effects_mono (fs : String → Bool) (st : CollectOut) (d : String)
    (y : Effect) (hy : y ∈ st.effects) : y ∈ (mkdirIfAbsent fs st d).effects := by
  unfold mkdirIfAbsent; split
  · exact hy
  · exact List.mem_append_left _ hy

theorem mkdirIfAbsent_created_mono (fs : String → Bool) (st : CollectOut) (d : String)
    (y : String) (hy : y ∈ st.created) : y ∈ (mkdirIfAbsent fs st d).created := by
  unfold mkdirIfAbsent; split
  · exact hy
  · exact List.mem_append_left _ hy

theorem mkdirIfAbsent_mem_self (fs : String → Bool) (st : CollectOut) (d : String)
    (h : fs d = false) : d ∈ (mkdirIfAbsent fs st d).created := by
  unfold mkdirIfAbsent; split
  · next hc =>
    rcases hc with hfs | hmem
    · rw [h] at hfs; cases hfs
    · exact hmem
  · exact List.mem_append_right _ (by simp)

theorem ncargCopyStep_dataFiles (ncl root d : String) (st : CollectOut) (nm : String) :
    (ncargCopyStep ncl root d st nm).dataFiles =
      st.dataFiles ++ (if root = "database/rangs" then []
                       else [pathJoin (pathJoin "ncarg" root) nm]) := by
  unfold ncargCopyStep
  by_cases h : root = "database/rangs" <;> simp [h]

theorem ncargCopyStep_created (ncl root d : String) (st : CollectOut) (nm : String) :
    (ncargCopyStep ncl root d st nm).created = st.created := by
  unfold ncargCopyStep; split <;> rfl

theorem ncargCopyStep_filterWrite (ncl root d : String) (st : CollectOut) (nm : String) :
    ((ncargCopyStep ncl root d st nm).effects).filter Effect.isWrite
      = (st.effects).filter Effect.isWrite := by
  unfold ncargCopyStep; split
  · simp [List.filter_append, Effect.isWrite]
  · rfl

theorem ncargCopyStep_effects_mono (ncl root d : String) (st : CollectOut) (nm : String)
    (y : Effect) (hy : y ∈ st.effects) : y ∈ (ncargCopyStep ncl root d st nm).effects := by
  unfold ncargCopyStep; split
  · exact List.mem_append_left _ hy
  · exact hy

theorem ncargStep_dataFiles (ncl cwd : String) (fs : String → Bool)
    (st : CollectOut) (e : WalkEntry) :
    (ncargStep ncl cwd fs st e).dataFiles =
      st.dataFiles ++ (if e.root = "database/rangs" then []
                       else e.files.map (fun nm => pathJoin (pathJoin "ncarg" e.root) nm)) := by
  unfold ncargStep
  rw [foldl_dataFiles_char _
        (fun nm => if e.root = "database/rangs" then []
                   else [pathJoin (pathJoin "ncarg" e.root) nm])
        (fun st nm => ncargCopyStep_dataFiles ncl e.root (destDir cwd e.root) st nm),
      mkdirIfAbsent_dataFiles]
  by_cases h : e.root = "database/rangs" <;>
    simp [h, flatMap_nil_fun, flatMap_singleton_fun]

theorem ncargStep_created (ncl cwd : String) (fs : String → Bool)
    (st : CollectOut) (e : WalkEntry) :
    (ncargStep ncl cwd fs st e).created
      = (mkdirIfAbsent fs st (destDir cwd e.root)).created := by
  unfold ncargStep
  exact foldl_created_eq _
    (fun st nm => ncargCopyStep_created ncl e.root (destDir cwd e.root) st nm) _ _

theorem ncargStep_filterWrite (ncl cwd : String) (fs : String → Bool)
    (st : CollectOut) (e : WalkEntry) :
    ((ncargStep ncl cwd fs st e).effects).filter Effect.isWrite
      = (st.effects).filter Effect.isWrite := by
  unfold ncargStep
  rw [filter_isWrite_foldl _
        (fun st nm => ncargCopyStep_filterWrite ncl e.root (destDir cwd e.root) st nm),
      mkdirIfAbsent_filterWrite]

theorem ncargStep_effects_mono (ncl cwd : String) (fs : String → Bool)
    (st : CollectOut) (e : WalkEntry) (y : Effect) (hy : y ∈ st.effects) :
    y ∈ (ncargStep ncl cwd fs st e).effects := by
  unfold ncargStep
  exact foldl_effects_mono _
    (fun st nm y hy => ncargCopyStep_effects_mono ncl e.root (destDir cwd e.root) st nm y hy)
    _ _ _ (mkdirIfAbsent_effects_mono fs st (destDir cwd e.root) y hy)

theorem ncargStep_created_mono (ncl cwd : String) (fs : String → Bool)
    (st : CollectOut) (e : WalkEntry) (y : String) (hy : y ∈ st.created) :
    y ∈ (ncargStep ncl cwd fs st e).created := by
  rw [ncargStep_created]
  exact mkdirIfAbsent_created_mono fs st (destDir cwd e.root) y hy

theorem pynglexStep_filterWrite (dirTo : String) (st : CollectOut) (file : String) :
    ((pynglexStep dirTo st file).effects).filter Effect.isWrite
      = (st.effects).filter Effect.isWrite := by
  unfold pynglexStep; split
  · simp [List.filter_append, Effect.isWrite]
  · rfl

theorem pynglex_no_writes (fs : String → Bool) (listing : List String) :
    ((get_pynglex_files fs listing).effects).filter Effect.isWrite = [] := by
  simp only [get_pynglex_files]
  rw [filter_isWrite_foldl _
        (fun st file => pynglexStep_filterWrite (pathJoin PYNGL_NCARG_DIR "pynglex") st file),
      mkdirIfAbsent_filterWrite, mkdirIfAbsent_filterWrite]
  rfl

theorem ncarg_no_writes (ncarg_lib cwd : String) (fs : String → Bool)
    (created0 : List String) (walks : String → List WalkEntry) :
    ((get_ncarg_files ncarg_lib cwd fs created0 walks).effects).filter Effect.isWrite = [] := by
  simp only [get_ncarg_files, ncargFinish, ncargInit]
  rw [List.filter_append,
      filter_isWrite_foldl _
        (fun st e => ncargStep_filterWrite (pathJoin ncarg_lib "ncarg") cwd fs st e),
      List.filter_append, mkdirIfAbsent_filterWrite]
  rfl

theorem filter_isWrite_removedIfExists (c : Bool) (p : String) :
    (removedIfExists c p).filter Effect.isWrite = [] := by
  cases c <;> rfl

theorem filter_isWrite_cflagsTail (cflagsRes : Option String) (archCond : Bool)
    (fs : String → Bool) (listing : List String) (ncarg_lib cwd : String)
    (created0 : List String) (walks : String → List WalkEntry) :
    (cflagsTailEffects cflagsRes archCond (get_pynglex_files fs listing).effects
        (get_ncarg_files ncarg_lib cwd fs created0 walks).effects).filter Effect.isWrite
      = [] := by
  cases cflagsRes with
  | none => rfl
  | some c =>
    cases archCond <;>
      simp [cflagsTailEffects, List.filter_append, Effect.isWrite,
            pynglex_no_writes, ncarg_no_writes]

/-- C2 (amended): the version-descriptor file contains exactly FOUR string
fields — the version string, the array-module name (`numpy`), the
numeric-array-library version, and the host-language version (first five
characters of `sys.version`) — and the script writes it exactly once: in
every run the effect trace contains exactly one file-content write, namely
the single `create_version_file` write to `src/ngl/version.py` (present
precisely when the script gets past the NumPy and `NCARG_ROOT` guards), and
no later effect ever writes that file again. -/
theorem versionFileWriteOnce :
    (∀ w : World,
      ((runSetup w).2).filter Effect.isWrite =
        (if w.numpyOk = true ∧ (w.env "NCARG_ROOT").isSome = true
         then [Effect.write pyngl_vfile
                 (versionLines w.versionLine w.arrayModuleVersion w.sysVersion)]
         else []))
    ∧ (∀ v amv sv, (versionLines v amv sv).length = 4) := by
  constructor
  · intro w
    by_cases hnp : w.numpyOk = true
    · rcases henv : w.env "NCARG_ROOT" with _ | root
      · simp [runSetup, hnp, henv]
      · simp [runSetup, hnp, henv, List.filter_append,
              filter_isWrite_removedIfExists, filter_isWrite_cflagsTail,
              Effect.isWrite]
    · simp [runSetup, hnp]
  · intro v amv sv; rfl

/-- C2 (counterexample to the claim as stated): at concrete version strings,
the version-descriptor record written by `create_version_file` has four
fields, not three — the array-module name `numpy` is a fourth field. -/
theorem versionFileFourFields :
    (versionLines "1.5.0" "1.9.2" "2.7.3 (default, ...)").length ≠ 3 := by
  decide

/-- C3: whenever NumPy imports but `NCARG_ROOT` is absent from the
environment, the script exits with status 1 having performed no effects, and
the printed diagnostic names `NCARG_ROOT`. -/
theorem ncargRootMissingExits (w : World)
    (hnp : w.numpyOk = true) (henv : w.env "NCARG_ROOT" = none) :
    runSetup w = (Outcome.exit 1 ncargRootMsg, [])
      ∧ ∃ t, ncargRootMsg = "NCARG_ROOT" ++ t := by
  refine ⟨by simp [runSetup, hnp, henv], " is not set; can" ++ quoteS ++ "t continue!", ?_⟩
  decide

/-- A concrete world with NumPy importable and an empty environment. -/
def noRootWorld : World :=
  { numpyOk := true, env := fun _ => none, fs := fun _ => false,
    unameLast := "x86_64", unameRelease := "r1", sysPlatform := "linux2",
    sysVersion := "2.7.3", arrayModuleVersion := "1.9.2", versionLine := "1.5.0",
    numpyInclude := "/np", pynglexListing := [], walks := fun _ => [], cwd := "/b" }

/-- Witness for C3 at the concrete world `noRootWorld`. -/
theorem ncargRootMissingExitsWitness :
    runSetup noRootWorld = (Outcome.exit 1 ncargRootMsg, [])
      ∧ ∃ t, ncargRootMsg = "NCARG_ROOT" ++ t :=
  ncargRootMissingExits noRootWorld rfl rfl

/-- C7: whenever NumPy cannot be imported the script exits with status 1
before performing any effect — the trace is empty whatever the environment,
filesystem and installation tree are — and the diagnostic names NumPy. -/
theorem numpyMissingExitsFirst (w : World) (hnp : w.numpyOk = false) :
    runSetup w = (Outcome.exit 1 numpyMissingMsg, [])
      ∧ ∃ t u, numpyMissingMsg = t ++ "NumPy" ++ u := by
  refine ⟨by simp [runSetup, hnp], "Error: Cannot import ",
          ". Can" ++ quoteS ++ "t continue.", ?_⟩
  decide

/-- A concrete world in which NumPy is not importable. -/
def noNumpyWorld : World := { noRootWorld with numpyOk := false }

/-- Witness for C7 at the concrete world `noNumpyWorld`. -/
theorem numpyMissingExitsFirstWitness :
    runSetup noNumpyWorld = (Outcome.exit 1 numpyMissingMsg, [])
      ∧ ∃ t u, numpyMissingMsg = t ++ "NumPy" ++ u :=
  numpyMissingExitsFirst noNumpyWorld rfl

/-- C4: with `NCARG_ROOT` provided and `NCARG_LIB` absent, the resolved
library directory is exactly `os.path.join(ncarg_root, 'lib')`. -/
theorem ncargLibDefault (env : String → Option String) (ncarg_root : String)
    (h : env "NCARG_LIB" = none) :
    ncarg_lib_resolved env ncarg_root = pathJoin ncarg_root "lib" := by
  unfold ncarg_lib_resolved
  rw [h]

/-- Witness for C4: at a concrete root the default is the joined path. -/
theorem ncargLibDefaultWitness :
    ncarg_lib_resolved (fun _ => none) "/usr/local/ncarg" = pathJoin "/usr/local/ncarg" "lib"
      ∧ pathJoin "/usr/local/ncarg" "lib" = "/usr/local/ncarg/lib" :=
  ⟨ncargLibDefault (fun _ => none) "/usr/local/ncarg" rfl, by decide⟩

/-- C5: two runs of the library/path assembler differing only in the CPU
architecture identifier produce identical library-name lists, and
library-search-path lists that agree on a common prefix `pre` and suffix
`post` and differ only in the platform-conditional `lib64` segment between
them. -/
theorem archOnlyAffectsLib64 (ncarg_lib : String) (fs : String → Bool)
    (sysPlatform : String) (env : String → Option String)
    (f2clibs : Option (List String)) (f2clibsDir ncllibsDir : String)
    (arch₁ arch₂ : String) :
    (set_ncl_libs_and_paths ncarg_lib fs arch₁ sysPlatform env f2clibs
        f2clibsDir ncllibsDir).1
      = (set_ncl_libs_and_paths ncarg_lib fs arch₂ sysPlatform env f2clibs
          f2clibsDir ncllibsDir).1
    ∧ ∃ pre post,
        (set_ncl_libs_and_paths ncarg_lib fs arch₁ sysPlatform env f2clibs
            f2clibsDir ncllibsDir).2
          = pre ++ lib64Part fs arch₁ ++ post
        ∧ (set_ncl_libs_and_paths ncarg_lib fs arch₂ sysPlatform env f2clibs
            f2clibsDir ncllibsDir).2
          = pre ++ lib64Part fs arch₂ ++ post := by
  refine ⟨rfl, libPathsPre ncarg_lib fs,
          optPath env "CAIRO_PREFIX" "lib" ++ optPath env "FREETYPE_PREFIX" "lib"
            ++ optPath env "PNG_PREFIX" "lib" ++ optPath env "ZLIB_PREFIX" "lib"
            ++ f2cSuffix f2clibsDir ncllibsDir, ?_, ?_⟩ <;>
    simp [set_ncl_libs_and_paths, List.append_assoc]

/-- C6 (counterexample to the claim as stated): two runs of the assembler
whose environment, operating-system identifier and CPU architecture are all
literally identical, and which differ only in which filesystem directories
exist (here `/opt/X11/lib`), produce different library-search-path lists;
so environment and platform identifiers alone do not determine the output. -/
theorem pathsDependOnFilesystem :
    (set_ncl_libs_and_paths "L" (fun _ => false) "x86_64" "linux2"
        (fun _ => none) none "" "").2
      ≠ (set_ncl_libs_and_paths "L" (fun p => p == "/opt/X11/lib") "x86_64" "linux2"
          (fun _ => none) none "" "").2 := by
  decide

/-- C6 (amended): the assembler is deterministic given identical environment,
platform identifiers AND filesystem existence state: it is a pure function
of the resolved library directory, the filesystem probe, the machine and
OS identifiers, the environment, and the three resolved optional values. -/
theorem assemblerDeterministic
    (nl₁ nl₂ : String) (fs₁ fs₂ : String → Bool) (u₁ u₂ sp₁ sp₂ : String)
    (env₁ env₂ : String → Option String) (f₁ f₂ : Option (List String))
    (fd₁ fd₂ nd₁ nd₂ : String)
    (h1 : nl₁ = nl₂) (h2 : fs₁ = fs₂) (h3 : u₁ = u₂) (h4 : sp₁ = sp₂)
    (h5 : env₁ = env₂) (h6 : f₁ = f₂) (h7 : fd₁ = fd₂) (h8 : nd₁ = nd₂) :
    set_ncl_libs_and_paths nl₁ fs₁ u₁ sp₁ env₁ f₁ fd₁ nd₁
      = set_ncl_libs_and_paths nl₂ fs₂ u₂ sp₂ env₂ f₂ fd₂ nd₂ := by
  subst h1; subst h2; subst h3; subst h4; subst h5; subst h6; subst h7; subst h8; rfl

/-- Witness for the amended C6 at concrete identical inputs. -/
theorem assemblerDeterministicWitness :
    set_ncl_libs_and_paths "L" (fun _ => false) "x86_64" "linux2"
        (fun _ => none) none "" ""
      = set_ncl_libs_and_paths "L" (fun _ => false) "x86_64" "linux2"
          (fun _ => none) none "" "" :=
  assemblerDeterministic "L" "L" (fun _ => false) (fun _ => false) "x86_64" "x86_64"
    "linux2" "linux2" (fun _ => none) (fun _ => none) none none "" "" "" ""
    rfl rfl rfl rfl rfl rfl rfl rfl

/-- C8: each optional third-party prefix occupies its own contiguous segment
of the assembled library-search-path list and of the include-path list, and
that segment is the singleton `join(value, sub)` (two entries for the
freetype include case) when the corresponding environment variable is
present and empty when it is absent; the surrounding segments do not involve
the four prefix variables. -/
theorem optionalPrefixContributions
    (ncarg_lib ncarg_root numpyInclude : String) (fs : String → Bool)
    (unameLast sysPlatform : String) (env : String → Option String)
    (f2clibs : Option (List String)) (f2clibsDir ncllibsDir : String) :
    ((set_ncl_libs_and_paths ncarg_lib fs unameLast sysPlatform env f2clibs
        f2clibsDir ncllibsDir).2
      = libPathsPre ncarg_lib fs ++ lib64Part fs unameLast
        ++ optPath env "CAIRO_PREFIX" "lib" ++ optPath env "FREETYPE_PREFIX" "lib"
        ++ optPath env "PNG_PREFIX" "lib" ++ optPath env "ZLIB_PREFIX" "lib"
        ++ f2cSuffix f2clibsDir ncllibsDir)
    ∧ (set_include_paths ncarg_root numpyInclude env
      = [numpyInclude, pathJoin ncarg_root "include"]
        ++ optPath env "PNG_PREFIX" "include" ++ optPath env "ZLIB_PREFIX" "include"
        ++ optPath env "CAIRO_PREFIX" "include" ++ freetypeIncPart env ++ ["src/gsun"])
    ∧ (∀ v sub, env v = none → optPath env v sub = [])
    ∧ (∀ v sub p, env v = some p → optPath env v sub = [pathJoin p sub])
    ∧ (env "FREETYPE_PREFIX" = none → freetypeIncPart env = [])
    ∧ (∀ p, env "FREETYPE_PREFIX" = some p →
        freetypeIncPart env = [pathJoin p "include", pathJoin p "include/freetype2"]) := by
  refine ⟨rfl, rfl, ?_, ?_, ?_, ?_⟩
  · intro v sub h; simp [optPath, h]
  · intro v sub p h; simp [optPath, h]
  · intro h; simp [freetypeIncPart, h]
  · intro p h; simp [freetypeIncPart, h]

/-- An environment with only `PNG_PREFIX` set, for the C8 witness. -/
def pngOnlyEnv : String → Option String :=
  fun v => if v = "PNG_PREFIX" then some "/png" else none

/-- Witness for C8: with only `PNG_PREFIX` present its segment is the
single joined entry and the `CAIRO_PREFIX` segment is empty. -/
theorem optionalPrefixContributionsWitness :
    optPath pngOnlyEnv "PNG_PREFIX" "lib" = [pathJoin "/png" "lib"]
      ∧ optPath pngOnlyEnv "CAIRO_PREFIX" "lib" = [] :=
  ⟨(optionalPrefixContributions "L" "R" "N" (fun _ => false) "x" "linux2"
      pngOnlyEnv none "" "").2.2.2.1 "PNG_PREFIX" "lib" "/png" (by decide),
   (optionalPrefixContributions "L" "R" "N" (fun _ => false) "x" "linux2"
      pngOnlyEnv none "" "").2.2.1 "CAIRO_PREFIX" "lib" (by decide)⟩

/-- C9: the two native extension targets carry identical macro definitions,
include paths, library search paths, library names and extra objects for
every assembled configuration, and differ in their source lists. -/
theorem extensionsShareConfig (dmacros : List (String × Option String))
    (incDirs libDirs libNames extraObjs : List String) :
    ∃ e₁ e₂, EXT_MODULES dmacros incDirs libDirs libNames extraObjs = [e₁, e₂]
      ∧ e₁.define_macros = e₂.define_macros
      ∧ e₁.include_dirs = e₂.include_dirs
      ∧ e₁.library_dirs = e₂.library_dirs
      ∧ e₁.libraries = e₂.libraries
      ∧ e₁.extra_objects = e₂.extra_objects
      ∧ e₁.sources ≠ e₂.sources := by
  refine ⟨_, _, rfl, rfl, rfl, rfl, rfl, rfl, ?_⟩
  show ["src/Helper.c", "src/hlu/hlu_wrap.c", "src/gsun/gsun.c"]
    ≠ [pathJoin (pathJoin "src" "paft") "fplibmodule.c"]
  decide

/-- C1 (amended): exact characterization of the `DATA_FILES` entries added
by `get_ncarg_files`: one entry `join('ncarg', root, name)` for every file
of every walked directory whose path is not EXACTLY `database/rangs` (so
files in deeper subdirectories of `database/rangs` are still included),
followed by the `sysresfile` entry.  In particular no entry ever comes from
the directory `database/rangs` itself. -/
theorem ncargManifestCharacterization (ncarg_lib cwd : String) (fs : String → Bool)
    (created0 : List String) (walks : String → List WalkEntry) :
    (get_ncarg_files ncarg_lib cwd fs created0 walks).dataFiles =
      (NCARG_DIRS.flatMap walks).flatMap
        (fun e => if e.root = "database/rangs" then []
                  else e.files.map (fun nm => pathJoin (pathJoin "ncarg" e.root) nm))
      ++ [pathJoin "ncarg" "sysresfile"] := by
  simp only [get_ncarg_files, ncargFinish]
  rw [foldl_dataFiles_char _
        (fun e => if e.root = "database/rangs" then []
                  else e.files.map (fun nm => pathJoin (pathJoin "ncarg" e.root) nm))
        (fun st e => ncargStep_dataFiles (pathJoin ncarg_lib "ncarg") cwd fs st e)]
  simp only [ncargInit, mkdirIfAbsent_dataFiles, List.nil_append]

/-- A walk of the `database` tree containing a file inside a deeper
subdirectory of `database/rangs`, used to refute C1 as stated. -/
def rangsWalk : String → List WalkEntry :=
  fun d => if d = "database"
           then [{ root := "database/rangs/sub", files := ["f00"] }] else []

/-- C1 (counterexample to the claim as stated): with a walk that visits
`database/rangs/sub` (a subdirectory of the excluded `database/rangs`), the
manifest DOES contain the entry for its file, the trace contains the copy
whose source path `L/ncarg/database/rangs/sub/f00` lies strictly under the
excluded subdirectory `L/ncarg/database/rangs`, so the exclusion does not
extend to deeper subdirectories. -/
theorem rangsDeepFileIncluded :
    "ncarg/database/rangs/sub/f00"
        ∈ (get_ncarg_files "L" "/c" (fun _ => false) [] rangsWalk).dataFiles
      ∧ Effect.copy "L/ncarg/database/rangs/sub/f00" (destDir "/c" "database/rangs/sub")
          ∈ (get_ncarg_files "L" "/c" (fun _ => false) [] rangsWalk).effects
      ∧ strHasPrefix (pathJoin (pathJoin "L" "ncarg") "database/rangs" ++ "/")
          "L/ncarg/database/rangs/sub/f00" = true := by
  decide

/-- Invariant of the collection state: every directory recorded as created,
beyond the base set `base` inherited from earlier phases, has a matching
`mkdir` effect in the trace. -/
def CreatedTracked (base : List String) (st : CollectOut) : Prop :=
  ∀ d ∈ st.created, d ∈ base ∨ Effect.mkdir d ∈ st.effects

theorem mkdirIfAbsent_tracked (fs : String → Bool) (st : CollectOut) (d : String)
    (base : List String) (h : CreatedTracked base st) :
    CreatedTracked base (mkdirIfAbsent fs st d) := by
  unfold mkdirIfAbsent; split
  · exact h
  · intro d0 hd0
    rcases List.mem_append.mp hd0 with h1 | h1
    · rcases h d0 h1 with h2 | h2
      · exact Or.inl h2
      · exact Or.inr (List.mem_append_left _ h2)
    · obtain rfl := List.mem_singleton.mp h1
      exact Or.inr (List.mem_append_right _ (List.mem_singleton.mpr rfl))

theorem ncargCopyStep_tracked (ncl root d : String) (st : CollectOut) (nm : String)
    (base : List String) (h : CreatedTracked base st) :
    CreatedTracked base (ncargCopyStep ncl root d st nm) := by
  unfold ncargCopyStep; split
  · intro d0 hd0
    rcases h d0 hd0 with h2 | h2
    · exact Or.inl h2
    · exact Or.inr (List.mem_append_left _ h2)
  · exact h

theorem foldl_tracked {α : Type} (step : CollectOut → α → CollectOut)
    (base : List String)
    (h : ∀ st x, CreatedTracked base st → CreatedTracked base (step st x)) :
    ∀ (l : List α) (st : CollectOut),
      CreatedTracked base st → CreatedTracked base (l.foldl step st) := by
  intro l
  induction l with
  | nil => intro st hst; exact hst
  | cons x xs ih => intro st hst; exact ih _ (h _ _ hst)

theorem ncargStep_tracked (ncl cwd : String) (fs : String → Bool)
    (st : CollectOut) (e : WalkEntry) (base : List String)
    (h : CreatedTracked base st) :
    CreatedTracked base (ncargStep ncl cwd fs st e) := by
  unfold ncargStep
  exact foldl_tracked _ base
    (fun st nm hst => ncargCopyStep_tracked ncl e.root (destDir cwd e.root) st nm base hst)
    _ _ (mkdirIfAbsent_tracked fs st (destDir cwd e.root) base h)

theorem ncargInit_tracked (ncl : String) (fs : String → Bool) (created0 : List String) :
    CreatedTracked created0 (ncargInit ncl fs created0) := by
  have h0 : CreatedTracked created0 { created := created0, effects := [], dataFiles := [] } :=
    fun d hd => Or.inl hd
  have h1 := mkdirIfAbsent_tracked fs _ PYNGL_NCARG_DIR created0 h0
  intro d0 hd0
  rcases h1 d0 hd0 with h2 | h2
  · exact Or.inl h2
  · exact Or.inr (List.mem_append_left _ h2)

theorem ncargStep_dest_mem (ncl cwd : String) (fs : String → Bool)
    (st : CollectOut) (e : WalkEntry) (hfs : fs (destDir cwd e.root) = false) :
    destDir cwd e.root ∈ (ncargStep ncl cwd fs st e).created := by
  rw [ncargStep_created]
  exact mkdirIfAbsent_mem_self fs st (destDir cwd e.root) hfs

theorem foldl_dest_created (ncl cwd : String) (fs : String → Bool) :
    ∀ (l : List WalkEntry) (st : CollectOut) (e : WalkEntry), e ∈ l →
      fs (destDir cwd e.root) = false →
      destDir cwd e.root ∈ (l.foldl (ncargStep ncl cwd fs) st).created := by
  intro l
  induction l with
  | nil => intro st e he _; exact absurd he (List.not_mem_nil e)
  | cons x xs ih =>
    intro st e he hfs
    rcases List.mem_cons.mp he with rfl | he2
    · exact foldl_created_mono _
        (fun st x y hy => ncargStep_created_mono ncl cwd fs st x y hy)
        xs _ _ (ncargStep_dest_mem ncl cwd fs st e hfs)
    · exact ih _ e he2 hfs

/-- C10: during data-file collection a destination staging directory is
created (a `mkdir` effect is recorded) for EVERY directory encountered by
the walk — including `database/rangs` and its descendants — provided its
destination does not already exist, even when no file from that directory
is copied into it. -/
theorem walkCreatesAllDestDirs (ncarg_lib cwd : String) (fs : String → Bool)
    (created0 : List String) (walks : String → List WalkEntry) (e : WalkEntry)
    (he : e ∈ NCARG_DIRS.flatMap walks)
    (hfs : fs (destDir cwd e.root) = false)
    (hc0 : destDir cwd e.root ∉ created0) :
    Effect.mkdir (destDir cwd e.root)
      ∈ (get_ncarg_files ncarg_lib cwd fs created0 walks).effects := by
  have h1 : destDir cwd e.root
      ∈ ((NCARG_DIRS.flatMap walks).foldl (ncargStep (pathJoin ncarg_lib "ncarg") cwd fs)
          (ncargInit (pathJoin ncarg_lib "ncarg") fs created0)).created :=
    foldl_dest_created _ cwd fs _ _ e he hfs
  have h2 : CreatedTracked created0
      ((NCARG_DIRS.flatMap walks).foldl (ncargStep (pathJoin ncarg_lib "ncarg") cwd fs)
        (ncargInit (pathJoin ncarg_lib "ncarg") fs created0)) :=
    foldl_tracked _ created0
      (fun st x hst => ncargStep_tracked _ cwd fs st x created0 hst) _ _
      (ncargInit_tracked _ fs created0)
  rcases h2 _ h1 with h3 | h3
  · exact absurd h3 hc0
  · simp only [get_ncarg_files, ncargFinish]
    exact List.mem_append_left _ h3

/-- A walk that visits `database/rangs` with no files, for the C10 witness. -/
def rangsOnlyWalk : String → List WalkEntry :=
  fun d => if d = "database" then [{ root := "database/rangs", files := [] }] else []

/-- Witness for C10: the staging directory for the excluded (here file-less)
`database/rangs` directory is still created. -/
theorem walkCreatesAllDestDirsWitness :
    Effect.mkdir (destDir "/c" "database/rangs")
      ∈ (get_ncarg_files "L" "/c" (fun _ => false) [] rangsOnlyWalk).effects :=
  walkCreatesAllDestDirs "L" "/c" (fun _ => false) [] rangsOnlyWalk
    { root := "database/rangs", files := [] } (by decide) rfl (by decide)
